import Mathlib

/-!
Verification development for the ingestion pipeline of the
`geospatial-mapping-demo` repository.

The definitions below are a shallow embedding of the Go source under
`src/modules/ingestion`:

* `producer/kafka_producer.go` — `KafkaProducer` with `SendDetection`
  (exponential-backoff retry loop), `SendDetectionBatch` (worker pool over a
  jobs channel), `StreamFromChannel` (streaming workers with a cancellation
  select), `handleDeliveryReports` (the delivery report collector),
  `Flush`, `GetMetrics` and `Close`.
* `ingestion/csv_reader_test.go` — the `CSVReader` implementation
  (`parseRow`, `ReadAll`, `StreamToChannel`) concatenated after its tests.
* the `models` package — `Detection`, `ToJSON`, `FromJSON` — concatenated
  into `src/modules/data-modeling/scripts/README.md`.

Conventions:
* Go `int64` counters are modelled as `Nat` (they only ever increase by 1),
  and the `messages_pending` subtraction of `GetMetrics` as `Int`, which
  agrees with `int64` in the reachable range.
* Go `float64` payload fields are modelled as `Rat`; no claim computes with
  them, they are inert payload carried through the pipeline.
* The external broker client (`confluent-kafka-go`'s `Producer`) is a
  capability: each `Produce` call is answered by an oracle
  `Nat → ProduceResult` (indexed by attempt number), and `producer.Flush`
  is an oracle `Nat → Nat` from a timeout in milliseconds to the count of
  messages still outstanding.
* Go `select` with several ready cases picks one pseudo-randomly; it is
  modelled by an explicit list of boolean choices, one per loop iteration.
-/

/-! ### Broker responses and the `SendDetection` retry loop -/

/-- The broker's synchronous answer to one `Produce` call: accepted into the
broker's buffer (`err == nil`), rejected with a retriable error
(`kafkaErr.IsRetriable()`, or a non-`kafka.Error` error, which the loop also
retries), or rejected with a non-retriable `kafka.Error`. -/
inductive ProduceResult where
  | accepted
  | transient
  | fatal
  deriving DecidableEq, Repr

/-- How one `SendDetection` call ends: `ok` (a `Produce` was accepted, the
function returns `nil`), `fatal` (a non-retriable error, returned at once),
or `exhausted` (the loop ran out of attempts and returns
"failed after N retries"). -/
inductive SendOutcome where
  | ok
  | fatal
  | exhausted
  deriving DecidableEq, Repr

/-- Observable result of one `SendDetection` call: the terminal outcome, the
number of `Produce` calls made, and the backoff delays slept (milliseconds,
in order). -/
structure SendResult where
  outcome : SendOutcome
  attempts : Nat
  delays : List Nat
  deriving DecidableEq, Repr

/-- The `for attempt := 0; attempt <= kp.maxRetries; attempt++` loop of
`SendDetection` (kafka_producer.go lines 139-162).  `fuel` is the number of
loop iterations still allowed (`maxRetries + 1 - attempt`); when it reaches
0 the loop exits and the call is `exhausted`.  Each iteration first sleeps
`baseBackoff * 2^(attempt-1)` when `attempt > 0`, then calls `Produce`:
on acceptance it returns `nil`, on a non-retriable error it returns at once,
and otherwise it retries.  `acc` accumulates slept delays in reverse. -/
def sendLoopAux (b : Nat) (resp : Nat → ProduceResult) :
    Nat → Nat → List Nat → SendResult
  | attempt, 0, acc => ⟨SendOutcome.exhausted, attempt, acc.reverse⟩
  | attempt, fuel + 1, acc =>
    let acc' := if attempt = 0 then acc else b * 2 ^ (attempt - 1) :: acc
    match resp attempt with
    | ProduceResult.accepted => ⟨SendOutcome.ok, attempt + 1, acc'.reverse⟩
    | ProduceResult.fatal => ⟨SendOutcome.fatal, attempt + 1, acc'.reverse⟩
    | ProduceResult.transient => sendLoopAux b resp (attempt + 1) fuel acc'

/-- One `SendDetection` call against a broker oracle `resp`, with retry cap
`m` and base backoff `b` milliseconds.  (The serialization step preceding
the loop is modelled separately, see `buildMessage`.) -/
def sendDetection (m b : Nat) (resp : Nat → ProduceResult) : SendResult :=
  sendLoopAux b resp 0 (m + 1) []

/-- `NewKafkaProducer` hardcodes `maxRetries: 5` (kafka_producer.go line 77). -/
def defaultMaxRetries : Nat := 5

/-- `NewKafkaProducer` hardcodes `baseBackoff: 100 * time.Millisecond`
(kafka_producer.go line 78), in milliseconds. -/
def defaultBaseBackoffMs : Nat := 100

/-! ### Metrics counters and the pipeline trace model -/

/-- The three atomic counters of `KafkaProducer`: `messagesSent`,
`messagesAcked`, `messagesFailed`. -/
structure Metrics where
  sent : Nat
  acked : Nat
  failed : Nat
  deriving DecidableEq, Repr

/-- Pipeline state: the counters plus the number of accepted sends whose
delivery report has not been consumed yet (the contents of
`deliveryChan` together with the broker's internal buffer). -/
structure PState where
  metrics : Metrics
  inflight : Nat
  deriving DecidableEq, Repr

/-- The snapshot returned by `GetMetrics` (kafka_producer.go lines 279-286):
the three counters and `messages_pending = sent - acked - failed`, an
`int64` subtraction that can in principle be negative. -/
structure MetricsSnapshot where
  messagesSent : Int
  messagesAcked : Int
  messagesFailed : Int
  messagesPending : Int
  deriving DecidableEq, Repr

/-- `GetMetrics` on a pipeline state. -/
def getMetrics (s : PState) : MetricsSnapshot :=
  ⟨s.metrics.sent, s.metrics.acked, s.metrics.failed,
   (s.metrics.sent : Int) - s.metrics.acked - s.metrics.failed⟩

/-- An observable event of the pipeline: a full `SendDetection` call (with
the broker's per-attempt responses), or the delivery report collector
(`handleDeliveryReports`) consuming one queued delivery event — a success
report (`ack`) or a failure report (`nack`). -/
inductive PEvent where
  | send (resp : Nat → ProduceResult)
  | ack
  | nack

/-- Effect of one event on the pipeline state, translated from the counter
updates in `SendDetection` and `handleDeliveryReports`:
an accepted send does `messagesSent.Add(1)` (and will later yield one
delivery event, so `inflight` grows); a non-retriable abort touches no
counter; retry exhaustion does `messagesFailed.Add(1)`; the collector does
`messagesAcked.Add(1)` on success and `messagesFailed.Add(1)` on failure. -/
def stepEv (m b : Nat) (s : PState) : PEvent → PState
  | PEvent.send resp =>
    match (sendDetection m b resp).outcome with
    | SendOutcome.ok =>
      ⟨⟨s.metrics.sent + 1, s.metrics.acked, s.metrics.failed⟩, s.inflight + 1⟩
    | SendOutcome.fatal => s
    | SendOutcome.exhausted =>
      ⟨⟨s.metrics.sent, s.metrics.acked, s.metrics.failed + 1⟩, s.inflight⟩
  | PEvent.ack =>
    ⟨⟨s.metrics.sent, s.metrics.acked + 1, s.metrics.failed⟩, s.inflight - 1⟩
  | PEvent.nack =>
    ⟨⟨s.metrics.sent, s.metrics.acked, s.metrics.failed + 1⟩, s.inflight - 1⟩

/-- Run a sequence of events from a state. -/
def runFrom (m b : Nat) (s : PState) : List PEvent → PState
  | [] => s
  | e :: tr => runFrom m b (stepEv m b s e) tr

/-- A delivery event can only be consumed if some accepted send actually
queued one: every accepted `Produce` yields exactly one event on
`deliveryChan` (§4.1 of the spec; the `deliveryChan` argument of
`Produce`). -/
def evReady (s : PState) : PEvent → Bool
  | PEvent.send _ => true
  | PEvent.ack => decide (0 < s.inflight)
  | PEvent.nack => decide (0 < s.inflight)

/-- A trace is valid from `s` when every delivery event consumed was
previously queued by an accepted send. -/
def validFromB (m b : Nat) (s : PState) : List PEvent → Bool
  | [] => true
  | e :: tr => evReady s e && validFromB m b (stepEv m b s e) tr

/-- The all-zero initial state of a fresh `KafkaProducer`. -/
def initialPState : PState := ⟨⟨0, 0, 0⟩, 0⟩

/-- Run a trace from the initial state. -/
def run (m b : Nat) (tr : List PEvent) : PState := runFrom m b initialPState tr

/-- Validity from the initial state. -/
def validTrace (m b : Nat) (tr : List PEvent) : Bool :=
  validFromB m b initialPState tr

/-- `true` when the event is not a retry-exhausted `SendDetection` call. -/
def sendNotExhausted (m b : Nat) : PEvent → Bool
  | PEvent.send resp =>
    decide ((sendDetection m b resp).outcome ≠ SendOutcome.exhausted)
  | _ => true

/-- `true` when no `SendDetection` call in the trace exhausts its retries. -/
def noExhaustB (m b : Nat) (tr : List PEvent) : Bool :=
  tr.all (sendNotExhausted m b)

/-! ### `SendDetectionBatch` — worker pool with partial-failure semantics -/

/-- The body of a `SendDetectionBatch` worker
(kafka_producer.go lines 181-190): drain the jobs channel; on a failed
`SendDetection` push an error and *continue to the next record*.  The jobs
channel hands every queued detection to exactly one worker once, so the
multiset of processed jobs is the input list; worker identity does not
affect outcomes or counters, and the pool is modelled as the jobs processed
in queue order. -/
def batchOutcomes (m b : Nat) : List (Nat → ProduceResult) → List SendResult
  | [] => []
  | r :: rs => sendDetection m b r :: batchOutcomes m b rs

/-- Number of errors collected on the batch `errors` channel: one per
record whose `SendDetection` returned a non-nil error (`fatal` or
`exhausted`). -/
def batchFailCount (outs : List SendResult) : Nat :=
  outs.countP (fun o => decide (o.outcome ≠ SendOutcome.ok))

/-- `SendDetectionBatch` (kafka_producer.go lines 169-216): returns `nil`
at once on an empty slice; otherwise queues every record, waits for the
workers, and returns `nil` when no record failed or an aggregated error
carrying the error count.  Result: the per-record outcomes and
`none`/`some errorCount`. -/
def sendDetectionBatch (m b : Nat) (rs : List (Nat → ProduceResult)) :
    List SendResult × Option Nat :=
  if rs.isEmpty then ([], none)
  else
    let outs := batchOutcomes m b rs
    let errs := batchFailCount outs
    (outs, if errs = 0 then none else some errs)

/-- Metric effect of a `SendDetectionBatch` call: each record goes through
one `SendDetection` call. -/
def batchStep (m b : Nat) (s : PState) (rs : List (Nat → ProduceResult)) : PState :=
  runFrom m b s (rs.map PEvent.send)

/-! ### `StreamFromChannel` workers and the collector after cancellation

Go's `select` between `<-kp.ctx.Done()` and a second ready channel picks one
of the ready cases pseudo-randomly.  After `kp.cancel()` the `Done` case is
permanently ready, so each loop iteration is a free choice between exiting
and serving the other channel; the choice sequence is an explicit
`List Bool` parameter (`true` = the `Done` branch is selected). -/

/-- One `StreamFromChannel` worker (kafka_producer.go lines 226-247) after
the cancellation signal has fired, with `queue` the detections still
buffered on `detectionChan` (each represented by its broker oracle).
Returns the `SendDetection` results of the records it still pulled, and the
input left undrained when it exited.  When the queue is empty only the
`Done` branch is ready, and the worker exits; when the modelled choice list
is exhausted the `Done` branch is selected. -/
def workerAfterCancel (m b : Nat) :
    List Bool → List (Nat → ProduceResult) → List SendResult × List (Nat → ProduceResult)
  | _, [] => ([], [])
  | [], q => ([], q)
  | c :: cs, r :: q =>
    if c then ([], r :: q)
    else
      let rest := workerAfterCancel m b cs q
      (sendDetection m b r :: rest.1, rest.2)

/-- Number of leading iterations in which the select keeps serving the data
channel before the `Done` branch is first selected. -/
def leadPulls : List Bool → Nat
  | [] => 0
  | true :: _ => 0
  | false :: cs => leadPulls cs + 1

/-- One event drained from `deliveryChan` by `handleDeliveryReports`: a
delivery report for a message (`failed = true` when
`m.TopicPartition.Error != nil`), or a non-`*kafka.Message` event, which
the handler skips. -/
inductive DeliveryEvent where
  | report (failed : Bool)
  | other
  deriving DecidableEq, Repr

/-- Effect of one drained event on the counters
(kafka_producer.go lines 96-114): failure increments `messagesFailed`,
success increments `messagesAcked`, other events are skipped. -/
def collectorStep (mcs : Metrics) : DeliveryEvent → Metrics
  | DeliveryEvent.report true => ⟨mcs.sent, mcs.acked, mcs.failed + 1⟩
  | DeliveryEvent.report false => ⟨mcs.sent, mcs.acked + 1, mcs.failed⟩
  | DeliveryEvent.other => mcs

/-- `handleDeliveryReports` after `kp.cancel()`: each iteration its select
chooses between the ready `ctx.Done()` branch (`return`) and, when events
are queued, the `deliveryChan` branch.  Returns the final counters and the
events left unprocessed on `deliveryChan` when the goroutine returned. -/
def collectorAfterCancel :
    List Bool → List DeliveryEvent → Metrics → Metrics × List DeliveryEvent
  | _, [], mcs => (mcs, [])
  | [], q, mcs => (mcs, q)
  | c :: cs, e :: q, mcs =>
    if c then (mcs, e :: q)
    else collectorAfterCancel cs q (collectorStep mcs e)

/-! ### `Flush` and `Close` -/

/-- Observable behaviour of one `KafkaProducer.Flush` call: the millisecond
timeout passed to the broker client's own flush, the remaining-message
count that came back and was logged, and what the Go function returns to
its caller. -/
structure FlushOutcome where
  calledWithMs : Nat
  loggedRemaining : Nat
  returnedToCaller : Option Nat
  deriving DecidableEq, Repr

/-- `KafkaProducer.Flush` (kafka_producer.go lines 267-276): converts the
`time.Duration` timeout (nanoseconds) to milliseconds, delegates the
block-until-empty-or-timeout wait to the broker client
(`kp.producer.Flush`, an external capability modelled as an oracle from the
millisecond timeout to the outstanding count), logs the remaining count,
and returns nothing — the Go function has no return value. -/
def producerFlush (brokerFlush : Nat → Nat) (timeoutNs : Nat) : FlushOutcome :=
  let ms := timeoutNs / 1000000
  ⟨ms, brokerFlush ms, none⟩

/-- `Close` calls `kp.Flush(30 * time.Second)`: 30s in nanoseconds. -/
def closeFlushTimeoutNs : Nat := 30000000000

/-- The successive operations of `Close`. -/
inductive CloseStep where
  | cancelCtx
  | flushStep (timeoutNs : Nat)
  | waitWorkers
  | waitCollector
  | closeProducer
  | logMetrics
  deriving DecidableEq, Repr

/-- The body of `Close` (kafka_producer.go lines 298-317), in program
order: cancel the context, flush with a 30s timeout, wait on `kp.wg` (which
holds only the `handleDeliveryReports` goroutine), close the broker client,
log the final metrics.  There is no wait on the send workers: the batch and
streaming modes wait on their own `WaitGroup`s inside
`SendDetectionBatch` / `StreamFromChannel`. -/
def closeSteps : List CloseStep :=
  [CloseStep.cancelCtx, CloseStep.flushStep closeFlushTimeoutNs,
   CloseStep.waitCollector, CloseStep.closeProducer, CloseStep.logMetrics]

/-! ### Detection records, messages, and serialization -/

/-- The `models.Detection` struct (the `models` package source is
concatenated into `src/modules/data-modeling/scripts/README.md`): metadata
ids, `IngestedAt` (a `time.Time`, here an abstract stamp), frame-level
data, pixel coordinates, confidence and class, the optional GPS pointer
fields, the optional computed geospatial pointer fields and the ROI path.
`float64` payload fields are `Rat`; `*float64`/`*string` pointer fields are
`Option`.  The struct declares no `VideoName` or `Heading` field — the
`VideoName` assignment in `CSVReader.parseRow` and the `Heading` field used
by the `models` tests (`src/unnamed/part_005`) have no counterpart here and
do not enter the record. -/
structure Detection where
  detectionID : String
  vehicleID : String
  sessionID : String
  ingestedAt : Int
  frameNumber : Int
  timestampSec : Rat
  pixelU : Rat
  pixelV : Rat
  confidence : Rat
  className : String
  vehicleLat : Option Rat
  vehicleLon : Option Rat
  recordingTimestamp : Option String
  objectLat : Option Rat
  objectLon : Option Rat
  distance : Option Rat
  roiImagePath : Option String
  deriving DecidableEq, Repr

/-- The wire-level JSON object produced by `Detection.ToJSON`
(`json.Marshal` of the struct): one field per struct field, named by its
`json:"..."` tag, in declaration order.  An `omitempty` pointer field that
is nil is absent from the JSON and stays `none` here; byte-level JSON
encoding is elided. -/
structure DetectionWire where
  detection_id : String
  vehicle_id : String
  session_id : String
  ingested_at : Int
  frame_number : Int
  timestamp_sec : Rat
  pixel_u : Rat
  pixel_v : Rat
  confidence : Rat
  class_name : String
  vehicle_lat : Option Rat
  vehicle_lon : Option Rat
  recording_timestamp : Option String
  object_lat : Option Rat
  object_lon : Option Rat
  distance : Option Rat
  roi_image_path : Option String
  deriving DecidableEq, Repr

/-- `Detection.ToJSON` (models package, README.md concatenation):
`json.Marshal` takes every struct field onto the wire under its tag. -/
def Detection.toWire (d : Detection) : DetectionWire :=
  ⟨d.detectionID, d.vehicleID, d.sessionID, d.ingestedAt,
   d.frameNumber, d.timestampSec, d.pixelU, d.pixelV, d.confidence,
   d.className, d.vehicleLat, d.vehicleLon, d.recordingTimestamp,
   d.objectLat, d.objectLon, d.distance, d.roiImagePath⟩

/-- `models.FromJSON` (models package, README.md concatenation):
`json.Unmarshal` recovers each struct field from its tagged wire field,
absent `omitempty` fields becoming nil. -/
def DetectionWire.toDetection (w : DetectionWire) : Detection :=
  ⟨w.detection_id, w.vehicle_id, w.session_id, w.ingested_at,
   w.frame_number, w.timestamp_sec, w.pixel_u, w.pixel_v, w.confidence,
   w.class_name, w.vehicle_lat, w.vehicle_lon, w.recording_timestamp,
   w.object_lat, w.object_lon, w.distance, w.roi_image_path⟩

/-- A Kafka record header. -/
structure KHeader where
  key : String
  value : String
  deriving DecidableEq, Repr

/-- The `kafka.Message` built by `SendDetection`
(kafka_producer.go lines 125-137): topic from the configuration, key
`[]byte(detection.DetectionID)`, value the serialized record, and the three
routing headers. -/
structure KMessage where
  topic : String
  key : String
  value : DetectionWire
  headers : List KHeader
  deriving DecidableEq, Repr

/-- Message construction in `SendDetection`, one message per call. -/
def buildMessage (topic : String) (d : Detection) : KMessage :=
  { topic := topic
    key := d.detectionID
    value := d.toWire
    headers := [⟨"vehicle_id", d.vehicleID⟩, ⟨"session_id", d.sessionID⟩,
                ⟨"class_name", d.className⟩] }

/-- Messages accepted into the broker's buffer over a sequence of
`SendDetection` calls (each with its own broker oracle): a call contributes
its message exactly when some `Produce` of that call was accepted — the
loop returns `nil` immediately at the first acceptance, so per call at most
one copy enters the broker.  Nothing deduplicates by key. -/
def producedMessages (m b : Nat) (topic : String) :
    List (Detection × (Nat → ProduceResult)) → List KMessage
  | [] => []
  | (d, resp) :: calls =>
    if (sendDetection m b resp).outcome = SendOutcome.ok then
      buildMessage topic d :: producedMessages m b topic calls
    else
      producedMessages m b topic calls

/-! ### The CSV Record Source (`CSVReader`) -/

/-- One CSV cell: the raw text together with the results of the external
parsers the reader applies to it — `strconv.Atoi` and
`strconv.ParseFloat(·, 64)` (numeric values as `Rat`).  A cell whose text
is not numeric carries `none` in both. -/
structure Cell where
  raw : String
  asInt : Option Int
  asFloat : Option Rat
  deriving DecidableEq, Repr

/-- One data row, as addressed by `parseRow` through the header column map:
the required columns, the two alternative pixel-coordinate layouts
(`u`/`v`, else `bbox_x1..bbox_y2`), and the optional columns.  `none`
models a column that is absent from the header, out of range for this row,
or (for the GPS and timestamp columns) holding the empty string. -/
structure Row where
  frameNumber : Cell
  timestampSec : Cell
  uv : Option (Cell × Cell)
  bbox : Option (Cell × Cell × Cell × Cell)
  confidence : Cell
  className : Cell
  videoName : Option Cell
  vehicleLat : Option Cell
  vehicleLon : Option Cell
  recordingTimestamp : Option Cell
  deriving DecidableEq, Repr

/-- The pixel-coordinate block of `parseRow`
(csv_reader_test.go lines 196-230): prefer the `u`/`v` columns — a parse
failure there is an error even if bbox columns exist — else fall back to
the bbox centroid `((x1+x2)/2, (y1+y2)/2)`, else fail with "missing pixel
coordinates". -/
def parseUV (r : Row) : Option (Rat × Rat) :=
  match r.uv with
  | some (cu, cv) => do
    let u ← cu.asFloat
    let v ← cv.asFloat
    pure (u, v)
  | none =>
    match r.bbox with
    | some (c1, c2, c3, c4) => do
      let x1 ← c1.asFloat
      let y1 ← c2.asFloat
      let x2 ← c3.asFloat
      let y2 ← c4.asFloat
      pure ((x1 + x2) / 2, (y1 + y2) / 2)
    | none => none

/-- `CSVReader.parseRow` (csv_reader_test.go lines 177-270): any parse
failure of `frame_number`, `timestamp_sec`, the pixel coordinates or
`confidence` rejects the row; the optional GPS fields are lenient — a
missing, empty or unparsable value just stays `nil` and never rejects the
row.  `did` is the fresh `GenerateDetectionID()` and `ia` the `time.Now()`
stamp consumed on success.  The `video_name` column is read as a raw string
with no failure mode, and the `models.Detection` struct declares no
corresponding field, so it does not affect row acceptance and does not
enter the record. -/
def parseRow (vid sid did : String) (ia : Int) (r : Row) : Option Detection := do
  let fn ← r.frameNumber.asInt
  let ts ← r.timestampSec.asFloat
  let uv ← parseUV r
  let conf ← r.confidence.asFloat
  pure { detectionID := did
         vehicleID := vid
         sessionID := sid
         ingestedAt := ia
         frameNumber := fn
         timestampSec := ts
         pixelU := uv.1
         pixelV := uv.2
         confidence := conf
         className := r.className.raw
         vehicleLat := r.vehicleLat.bind Cell.asFloat
         vehicleLon := r.vehicleLon.bind Cell.asFloat
         recordingTimestamp := r.recordingTimestamp.map Cell.raw
         objectLat := none
         objectLon := none
         distance := none
         roiImagePath := none }

/-- One line handed back by `csv.Reader.Read`: a parsed field list, or a
non-EOF read error (for example an inconsistent field count). -/
inductive RawLine where
  | goodRow (r : Row)
  | readErr
  deriving DecidableEq, Repr

/-- The log lines the reader emits, one constructor per `log.Printf` call
site of `ReadAll` / `StreamToChannel`.  `droppedCount` is *not* emitted by
any call site in the code; it is declared to state the spec's
"count of drops surfaced" output for comparison. -/
inductive LogEvent where
  | rowReadError
  | rowParseError
  | loadedCount (n : Nat)
  | streamedCount (n : Nat)
  | droppedCount (n : Nat)
  deriving DecidableEq, Repr

/-- `true` for the spec-side aggregate dropped-rows report. -/
def isDroppedCountLog : LogEvent → Bool
  | LogEvent.droppedCount _ => true
  | _ => false

/-- `true` for the per-row warnings the code actually logs for a dropped
row ("Error reading CSV row" / "Error parsing row"). -/
def isRowWarning : LogEvent → Bool
  | LogEvent.rowReadError => true
  | LogEvent.rowParseError => true
  | _ => false

/-- The shared data-row loop of `ReadAll` and `StreamToChannel`
(csv_reader_test.go lines 286-303 and 132-155): a row read error is logged
and skipped; a row that fails `parseRow` is logged and skipped; a parsed
detection is delivered.  `ids i` is the `GenerateDetectionID()` value for
the `i`-th successfully parsed row; returns the delivered detections and
the log, both in order. -/
def readLoop (vid sid : String) (ids : Nat → String) (ia : Int) :
    List RawLine → Nat → List Detection × List LogEvent
  | [], _ => ([], [])
  | RawLine.readErr :: rest, i =>
    let out := readLoop vid sid ids ia rest i
    (out.1, LogEvent.rowReadError :: out.2)
  | RawLine.goodRow r :: rest, i =>
    match parseRow vid sid (ids i) ia r with
    | none =>
      let out := readLoop vid sid ids ia rest i
      (out.1, LogEvent.rowParseError :: out.2)
    | some d =>
      let out := readLoop vid sid ids ia rest (i + 1)
      (d :: out.1, out.2)

/-- `CSVReader.ReadAll` (csv_reader_test.go lines 272-317) on the lines of
the file: the first line is the header (a failure to read it is the only
error return modelled — the file-open error is elided); the data rows go
through `readLoop`; finally "Loaded N detections" is logged.  Returns the
detections and the emitted log. -/
def readAll (vid sid : String) (ids : Nat → String) (ia : Int)
    (lines : List RawLine) : Except String (List Detection × List LogEvent) :=
  match lines with
  | [] => Except.error "failed to read CSV header"
  | RawLine.readErr :: _ => Except.error "failed to read CSV header"
  | RawLine.goodRow _ :: rest =>
    let out := readLoop vid sid ids ia rest 0
    Except.ok (out.1, out.2 ++ [LogEvent.loadedCount out.1.length])

/-- `CSVReader.StreamToChannel` (csv_reader_test.go lines 113-166): same
loop, the parsed detections go to `detectionChan` in order, and the final
log line reports the streamed count. -/
def streamToChannel (vid sid : String) (ids : Nat → String) (ia : Int)
    (lines : List RawLine) : Except String (List Detection × List LogEvent) :=
  match lines with
  | [] => Except.error "failed to read CSV header"
  | RawLine.readErr :: _ => Except.error "failed to read CSV header"
  | RawLine.goodRow _ :: rest =>
    let out := readLoop vid sid ids ia rest 0
    Except.ok (out.1, out.2 ++ [LogEvent.streamedCount out.1.length])

/-- Whether a data line is dropped by the reader (read error, or any of
the required fields malformed); the detection id argument of `parseRow`
does not affect parse success. -/
def lineDropped (vid sid : String) (ia : Int) : RawLine → Bool
  | RawLine.readErr => true
  | RawLine.goodRow r => (parseRow vid sid "" ia r).isNone

/-- Record Source contract from the spec (§3, §6): the delivered sequence
is exactly the successful parses of the valid rows, in order, malformed
rows dropped; stated as its own recursion to compare `readLoop` against. -/
def deliveredDetections (vid sid : String) (ids : Nat → String) (ia : Int) :
    List RawLine → Nat → List Detection
  | [], _ => []
  | RawLine.readErr :: rest, i => deliveredDetections vid sid ids ia rest i
  | RawLine.goodRow r :: rest, i =>
    match parseRow vid sid (ids i) ia r with
    | none => deliveredDetections vid sid ids ia rest i
    | some d => d :: deliveredDetections vid sid ids ia rest (i + 1)

/-- `Except.ok` test. -/
def exceptOk {ε α : Type} : Except ε α → Bool
  | Except.ok _ => true
  | Except.error _ => false

/-! ### Concrete scenarios and remaining helpers -/

/-- Backoff delays slept over a window of attempt numbers: attempt 0 sleeps
nothing, attempt `k ≥ 1` sleeps `b * 2 ^ (k - 1)`. -/
def rangeDelays (b start cnt : Nat) : List Nat :=
  ((List.range' start cnt).filter (fun k => decide (0 < k))).map
    (fun k => b * 2 ^ (k - 1))

/-- One `SendDetection` call that the broker transiently rejects on every
attempt (for example, a persistently full local queue). -/
def allTransientTrace : List PEvent :=
  [PEvent.send (fun _ => ProduceResult.transient)]

/-- One `SendDetection` call rejected with a non-retriable error. -/
def allFatalTrace : List PEvent :=
  [PEvent.send (fun _ => ProduceResult.fatal)]

/-- A mixed scenario: an accepted send acked by the collector, a
non-retriable abort, and an accepted send whose delivery fails. -/
def mixedTrace : List PEvent :=
  [PEvent.send (fun _ => ProduceResult.accepted), PEvent.ack,
   PEvent.send (fun _ => ProduceResult.fatal),
   PEvent.send (fun _ => ProduceResult.accepted), PEvent.nack]

/-- A representative detection (values from the repository's serialization
test). -/
def sampleDetection : Detection :=
  { detectionID := "test-123"
    vehicleID := "vehicle-001"
    sessionID := "session-001"
    ingestedAt := 0
    frameNumber := 75
    timestampSec := 5 / 2
    pixelU := 173728 / 100
    pixelV := 63006 / 100
    confidence := 5249 / 10000
    className := "stop sign"
    vehicleLat := none
    vehicleLon := none
    recordingTimestamp := none
    objectLat := none
    objectLon := none
    distance := none
    roiImagePath := none }

/-- A cell that parses as neither an integer nor a float. -/
def cellInvalid : Cell := ⟨"INVALID", none, none⟩

/-- The cell "75". -/
def cellInt75 : Cell := ⟨"75", some 75, some 75⟩

/-- The cell "2.500". -/
def cellTs : Cell := ⟨"2.500", none, some (5 / 2)⟩

/-- The cell "1737.28". -/
def cellU : Cell := ⟨"1737.28", none, some (173728 / 100)⟩

/-- The cell "630.06". -/
def cellV : Cell := ⟨"630.06", none, some (63006 / 100)⟩

/-- The cell "0.5249". -/
def cellConf : Cell := ⟨"0.5249", none, some (5249 / 10000)⟩

/-- The cell "stop sign". -/
def cellClass : Cell := ⟨"stop sign", none, none⟩

/-- Row `INVALID,2.500,1737.28,630.06,0.5249,stop sign` from
`TestCSVReaderInvalidData`: malformed `frame_number`. -/
def badFrameRow : Row :=
  ⟨cellInvalid, cellTs, some (cellU, cellV), none, cellConf, cellClass,
   none, none, none, none⟩

/-- Row `75,INVALID,1737.28,630.06,0.5249,stop sign` from
`TestCSVReaderInvalidData`: malformed `timestamp_sec`. -/
def badTsRow : Row :=
  ⟨cellInt75, cellInvalid, some (cellU, cellV), none, cellConf, cellClass,
   none, none, none, none⟩

/-- Stand-in for the header line (its cells are never parsed as data). -/
def headerLine : Row :=
  ⟨cellInvalid, cellInvalid, none, none, cellInvalid, cellInvalid,
   none, none, none, none⟩

/-- The file of `TestCSVReaderInvalidData`: a header and two malformed
data rows. -/
def invalidCSVLines : List RawLine :=
  [RawLine.goodRow headerLine, RawLine.goodRow badFrameRow,
   RawLine.goodRow badTsRow]

/-- Detections delivered by a reader result (empty on a header error). -/
def readerDetections (res : Except String (List Detection × List LogEvent)) :
    List Detection :=
  match res with
  | Except.ok out => out.1
  | Except.error _ => []

/-- Log emitted by a reader result. -/
def readerLogs (res : Except String (List Detection × List LogEvent)) :
    List LogEvent :=
  match res with
  | Except.ok out => out.2
  | Except.error _ => []

/-! ### Lemmas about the retry loop -/

theorem sendLoopAux_attempt_le (b : Nat) (resp : Nat → ProduceResult) :
    ∀ (fuel attempt : Nat) (acc : List Nat),
      attempt ≤ (sendLoopAux b resp attempt fuel acc).attempts := by
  intro fuel
  induction fuel with
  | zero => intro attempt acc; simp [sendLoopAux]
  | succ fuel ih =>
    intro attempt acc
    rcases hr : resp attempt with _ | _ | _ <;> simp [sendLoopAux, hr]
    exact Nat.le_trans (Nat.le_succ attempt) (ih (attempt + 1) _)

theorem sendLoopAux_attempts_le (b : Nat) (resp : Nat → ProduceResult) :
    ∀ (fuel attempt : Nat) (acc : List Nat),
      (sendLoopAux b resp attempt fuel acc).attempts ≤ attempt + fuel := by
  intro fuel
  induction fuel with
  | zero => intro attempt acc; simp [sendLoopAux]
  | succ fuel ih =>
    intro attempt acc
    rcases hr : resp attempt with _ | _ | _
    case accepted => simp [sendLoopAux, hr]
    case transient =>
      simp only [sendLoopAux, hr]
      have := ih (attempt + 1) (if attempt = 0 then acc else b * 2 ^ (attempt - 1) :: acc)
      omega
    case fatal => simp [sendLoopAux, hr]

theorem sendLoopAux_attempt_lt (b : Nat) (resp : Nat → ProduceResult)
    (fuel attempt : Nat) (acc : List Nat) (hf : 0 < fuel) :
    attempt < (sendLoopAux b resp attempt fuel acc).attempts := by
  rcases fuel with _ | fuel
  · omega
  · rcases hr : resp attempt with _ | _ | _ <;> simp [sendLoopAux, hr]
    exact sendLoopAux_attempt_le b resp fuel (attempt + 1) _

theorem sendLoopAux_delays (b : Nat) (resp : Nat → ProduceResult) :
    ∀ (fuel attempt : Nat) (acc : List Nat),
      (sendLoopAux b resp attempt fuel acc).delays
        = acc.reverse
          ++ rangeDelays b attempt
               ((sendLoopAux b resp attempt fuel acc).attempts - attempt) := by
  intro fuel
  induction fuel with
  | zero => intro attempt acc; simp [sendLoopAux, rangeDelays]
  | succ fuel ih =>
    intro attempt acc
    rcases hr : resp attempt with _ | _ | _
    case accepted =>
      rcases attempt with _ | a
      · simp [sendLoopAux, hr, rangeDelays, List.range']
      · simp [sendLoopAux, hr, rangeDelays, List.range', Nat.add_sub_cancel_left]
    case transient =>
      rcases attempt with _ | a
      · simp only [sendLoopAux, hr, if_true, Nat.zero_add, Nat.sub_zero]
        rw [ih 1 acc]
        have h1 : 1 ≤ (sendLoopAux b resp 1 fuel acc).attempts :=
          sendLoopAux_attempt_le b resp fuel 1 acc
        have hc : (sendLoopAux b resp 1 fuel acc).attempts
            = ((sendLoopAux b resp 1 fuel acc).attempts - 1) + 1 := by
          omega
        rw [hc]
        simp [rangeDelays, List.range'_succ]
      · simp only [sendLoopAux, hr, Nat.succ_ne_zero, if_false, Nat.add_sub_cancel]
        rw [ih (a + 1 + 1) (b * 2 ^ a :: acc)]
        have h1 : a + 1 + 1 ≤ (sendLoopAux b resp (a + 1 + 1) fuel (b * 2 ^ a :: acc)).attempts :=
          sendLoopAux_attempt_le b resp fuel (a + 1 + 1) _
        have hc : (sendLoopAux b resp (a + 1 + 1) fuel (b * 2 ^ a :: acc)).attempts - (a + 1)
            = ((sendLoopAux b resp (a + 1 + 1) fuel (b * 2 ^ a :: acc)).attempts - (a + 1 + 1)) + 1 := by
          omega
        rw [hc]
        simp [rangeDelays, List.range'_succ, List.append_assoc]
    case fatal =>
      rcases attempt with _ | a
      · simp [sendLoopAux, hr, rangeDelays, List.range']
      · simp [sendLoopAux, hr, rangeDelays, List.range', Nat.add_sub_cancel_left]

theorem sendDetection_delays (m b : Nat) (resp : Nat → ProduceResult) :
    (sendDetection m b resp).delays
      = (List.range' 1 ((sendDetection m b resp).attempts - 1)).map
          (fun k => b * 2 ^ (k - 1)) := by
  have h := sendLoopAux_delays b resp (m + 1) 0 []
  have h1 : 0 < (sendLoopAux b resp 0 (m + 1) []).attempts :=
    sendLoopAux_attempt_lt b resp (m + 1) 0 [] (Nat.succ_pos m)
  have hfilter : ∀ n : Nat,
      (List.range' 1 n).filter (fun k => decide (0 < k)) = List.range' 1 n := by
    intro n
    apply List.filter_eq_self.mpr
    intro a ha
    have := (List.mem_range'_1).mp ha
    simp
    omega
  rw [show (sendLoopAux b resp 0 (m + 1) []).attempts - 0
        = ((sendLoopAux b resp 0 (m + 1) []).attempts - 1) + 1 from by omega] at h
  rw [sendDetection]
  rw [h]
  simp [rangeDelays, List.range'_succ, hfilter]

theorem sendLoopAux_pre (b : Nat) (resp : Nat → ProduceResult) :
    ∀ (fuel attempt : Nat) (acc : List Nat) (k : Nat), attempt ≤ k →
      k + 1 < (sendLoopAux b resp attempt fuel acc).attempts →
      resp k = ProduceResult.transient := by
  intro fuel
  induction fuel with
  | zero =>
    intro attempt acc k hak hk
    simp [sendLoopAux] at hk
    omega
  | succ fuel ih =>
    intro attempt acc k hak hk
    rcases hr : resp attempt with _ | _ | _
    case accepted =>
      simp only [sendLoopAux, hr] at hk
      exact absurd hk (by omega)
    case transient =>
      simp only [sendLoopAux, hr] at hk
      rcases Nat.eq_or_lt_of_le hak with he | hl
      · exact he ▸ hr
      · exact ih (attempt + 1) _ k hl hk
    case fatal =>
      simp only [sendLoopAux, hr] at hk
      exact absurd hk (by omega)

/-! ### Lemmas about the trace model -/

theorem runFrom_counter_inv (m b : Nat) :
    ∀ (tr : List PEvent) (s : PState),
      validFromB m b s tr = true → noExhaustB m b tr = true →
      s.metrics.sent = s.metrics.acked + s.metrics.failed + s.inflight →
      (runFrom m b s tr).metrics.sent
        = (runFrom m b s tr).metrics.acked + (runFrom m b s tr).metrics.failed
          + (runFrom m b s tr).inflight := by
  intro tr
  induction tr with
  | nil => intro s _ _ h; exact h
  | cons e tr ih =>
    intro s hv hx h
    have hv2 : validFromB m b (stepEv m b s e) tr = true := by
      rw [validFromB, Bool.and_eq_true] at hv
      exact hv.2
    have hx1 : sendNotExhausted m b e = true := by
      rw [noExhaustB, List.all_cons, Bool.and_eq_true] at hx
      exact hx.1
    have hx2 : noExhaustB m b tr = true := by
      rw [noExhaustB, List.all_cons, Bool.and_eq_true] at hx
      exact hx.2
    rw [runFrom]
    apply ih (stepEv m b s e) hv2 hx2
    cases e with
    | send resp =>
      have hne : (sendDetection m b resp).outcome ≠ SendOutcome.exhausted := by
        simpa [sendNotExhausted] using hx1
      rcases ho : (sendDetection m b resp).outcome with _ | _ | _
      case ok => simp [stepEv, ho]; omega
      case fatal => simp [stepEv, ho]; omega
      case exhausted => exact absurd ho hne
    | ack =>
      have hin : 0 < s.inflight := by
        rw [validFromB, Bool.and_eq_true] at hv
        simpa [evReady] using hv.1
      simp [stepEv]
      omega
    | nack =>
      have hin : 0 < s.inflight := by
        rw [validFromB, Bool.and_eq_true] at hv
        simpa [evReady] using hv.1
      simp [stepEv]
      omega

/-! ### Lemmas about the post-cancellation loops and the batch pool -/

theorem collectorAfterCancel_eq :
    ∀ (cs : List Bool) (q : List DeliveryEvent) (mcs : Metrics),
      collectorAfterCancel cs q mcs
        = ((q.take (leadPulls cs)).foldl collectorStep mcs, q.drop (leadPulls cs)) := by
  intro cs
  induction cs with
  | nil =>
    intro q mcs
    cases q <;> simp [collectorAfterCancel, leadPulls]
  | cons c cs ih =>
    intro q mcs
    cases q with
    | nil => simp [collectorAfterCancel]
    | cons e q =>
      cases c with
      | true => simp [collectorAfterCancel, leadPulls]
      | false => simp [collectorAfterCancel, leadPulls, ih]

theorem workerAfterCancel_eq (m b : Nat) :
    ∀ (cs : List Bool) (q : List (Nat → ProduceResult)),
      workerAfterCancel m b cs q
        = ((q.take (leadPulls cs)).map (sendDetection m b), q.drop (leadPulls cs)) := by
  intro cs
  induction cs with
  | nil =>
    intro q
    cases q <;> simp [workerAfterCancel, leadPulls]
  | cons c cs ih =>
    intro q
    cases q with
    | nil => simp [workerAfterCancel]
    | cons r q =>
      cases c with
      | true => simp [workerAfterCancel, leadPulls]
      | false => simp [workerAfterCancel, leadPulls, ih]

theorem batchOutcomes_eq_map (m b : Nat) :
    ∀ rs : List (Nat → ProduceResult),
      batchOutcomes m b rs = rs.map (sendDetection m b) := by
  intro rs
  induction rs with
  | nil => rfl
  | cons r rs ih => simp [batchOutcomes, ih]

/-! ### Lemmas about the CSV reader -/

theorem parseRow_isNone_did (vid sid d1 d2 : String) (ia : Int) (r : Row) :
    (parseRow vid sid d1 ia r).isNone = (parseRow vid sid d2 ia r).isNone := by
  unfold parseRow
  cases r.frameNumber.asInt <;> simp
  cases r.timestampSec.asFloat <;> simp
  cases parseUV r <;> simp
  cases r.confidence.asFloat <;> simp

theorem readLoop_spec (vid sid : String) (ids : Nat → String) (ia : Int) :
    ∀ (rest : List RawLine) (i : Nat),
      (readLoop vid sid ids ia rest i).1 = deliveredDetections vid sid ids ia rest i
      ∧ (readLoop vid sid ids ia rest i).2.countP isRowWarning
          = rest.countP (lineDropped vid sid ia)
      ∧ (readLoop vid sid ids ia rest i).2.all (fun e => !isDroppedCountLog e) = true := by
  intro rest
  induction rest with
  | nil => intro i; exact ⟨rfl, rfl, rfl⟩
  | cons l rest ih =>
    intro i
    cases l with
    | readErr =>
      obtain ⟨ih1, ih2, ih3⟩ := ih i
      refine ⟨?_, ?_, ?_⟩
      · simpa [readLoop, deliveredDetections] using ih1
      · simp [readLoop, List.countP_cons, isRowWarning, lineDropped, ih2]
      · show (LogEvent.rowReadError :: (readLoop vid sid ids ia rest i).2).all
            (fun e => !isDroppedCountLog e) = true
        rw [List.all_cons, ih3]
        rfl
    | goodRow r =>
      rcases hp : parseRow vid sid (ids i) ia r with _ | d
      · obtain ⟨ih1, ih2, ih3⟩ := ih i
        have hdrop : lineDropped vid sid ia (RawLine.goodRow r) = true := by
          have h2 := parseRow_isNone_did vid sid (ids i) "" ia r
          rw [hp] at h2
          simpa [lineDropped] using h2.symm
        refine ⟨?_, ?_, ?_⟩
        · simpa [readLoop, deliveredDetections, hp] using ih1
        · simp [readLoop, List.countP_cons, isRowWarning, hp, hdrop, ih2]
        · show ((readLoop vid sid ids ia (RawLine.goodRow r :: rest) i).2).all
              (fun e => !isDroppedCountLog e) = true
          simp only [readLoop, hp]
          rw [List.all_cons, ih3]
          rfl
      · obtain ⟨ih1, ih2, ih3⟩ := ih (i + 1)
        have hdrop : lineDropped vid sid ia (RawLine.goodRow r) = false := by
          have h2 := parseRow_isNone_did vid sid (ids i) "" ia r
          rw [hp] at h2
          simpa [lineDropped] using h2.symm
        refine ⟨?_, ?_, ?_⟩
        · simpa [readLoop, deliveredDetections, hp] using ih1
        · simp [readLoop, List.countP_cons, hp, hdrop, ih2]
        · simpa [readLoop, List.all_cons, hp] using ih3

/-! ## Claims -/

/-- C1, counterexample: the claimed invariant "`sent ≥ acked + failed` and
`pending = sent - acked - failed` never negative" fails on the code.  A
single `SendDetection` call that the broker transiently rejects on every
attempt is a valid operation sequence (no delivery events are involved)
after which `GetMetrics` reports `sent = 0`, `failed = 1` and
`pending = -1`: retry exhaustion increments `messagesFailed` without ever
incrementing `messagesSent`. -/
theorem c1_counterexample :
    validTrace defaultMaxRetries defaultBaseBackoffMs allTransientTrace = true
    ∧ (getMetrics (run defaultMaxRetries defaultBaseBackoffMs allTransientTrace)).messagesSent = 0
    ∧ (getMetrics (run defaultMaxRetries defaultBaseBackoffMs allTransientTrace)).messagesFailed = 1
    ∧ ¬ ((getMetrics (run defaultMaxRetries defaultBaseBackoffMs allTransientTrace)).messagesAcked
          + (getMetrics (run defaultMaxRetries defaultBaseBackoffMs allTransientTrace)).messagesFailed
          ≤ (getMetrics (run defaultMaxRetries defaultBaseBackoffMs allTransientTrace)).messagesSent)
    ∧ (getMetrics (run defaultMaxRetries defaultBaseBackoffMs allTransientTrace)).messagesPending < 0 := by
  refine ⟨rfl, rfl, rfl, by decide, by decide⟩

/-- C1, amended: over every valid operation sequence in which no
`SendDetection` call exhausts its retries (each call ends accepted or
non-retriably rejected), the snapshot of `GetMetrics` satisfies
`sent ≥ acked + failed` and `pending = sent - acked - failed ≥ 0`; the
invariant as originally claimed is broken exactly by retry-exhausted calls,
which increment `failed` without `sent`. -/
theorem c1_invariant_amended (m b : Nat) (tr : List PEvent)
    (hv : validTrace m b tr = true) (hx : noExhaustB m b tr = true) :
    (getMetrics (run m b tr)).messagesAcked + (getMetrics (run m b tr)).messagesFailed
      ≤ (getMetrics (run m b tr)).messagesSent
    ∧ 0 ≤ (getMetrics (run m b tr)).messagesPending := by
  have h := runFrom_counter_inv m b tr initialPState hv hx (by rfl)
  rw [run] at *
  constructor
  · simp only [getMetrics]
    omega
  · simp only [getMetrics]
    omega

/-- C1, witness for the amended invariant at a concrete mixed trace: an
accepted-and-acked send, a non-retriable abort, and an accepted send whose
delivery fails. -/
theorem c1_invariant_amended_witness :
    validTrace defaultMaxRetries defaultBaseBackoffMs mixedTrace = true
    ∧ noExhaustB defaultMaxRetries defaultBaseBackoffMs mixedTrace = true
    ∧ ((getMetrics (run defaultMaxRetries defaultBaseBackoffMs mixedTrace)).messagesAcked
        + (getMetrics (run defaultMaxRetries defaultBaseBackoffMs mixedTrace)).messagesFailed
        ≤ (getMetrics (run defaultMaxRetries defaultBaseBackoffMs mixedTrace)).messagesSent
      ∧ 0 ≤ (getMetrics (run defaultMaxRetries defaultBaseBackoffMs mixedTrace)).messagesPending) :=
  ⟨by decide, by decide,
   c1_invariant_amended defaultMaxRetries defaultBaseBackoffMs mixedTrace
     (by decide) (by decide)⟩

/-- C2, counterexample: a send rejected non-retriably on every attempt does
abort at once — a single `Produce` call and no backoff — but it contributes
0, not 1, to the `failed` counter: the early return of `SendDetection`
skips `messagesFailed.Add(1)`, which only runs after retry exhaustion. -/
theorem c2_counterexample :
    (sendDetection defaultMaxRetries defaultBaseBackoffMs (fun _ => ProduceResult.fatal)).outcome
      = SendOutcome.fatal
    ∧ (sendDetection defaultMaxRetries defaultBaseBackoffMs (fun _ => ProduceResult.fatal)).attempts = 1
    ∧ (sendDetection defaultMaxRetries defaultBaseBackoffMs (fun _ => ProduceResult.fatal)).delays = []
    ∧ (getMetrics (run defaultMaxRetries defaultBaseBackoffMs allFatalTrace)).messagesFailed = 0
    ∧ ¬ ((getMetrics (run defaultMaxRetries defaultBaseBackoffMs allFatalTrace)).messagesFailed = 1) := by
  refine ⟨rfl, rfl, rfl, rfl, by decide⟩

/-- C2, amended: when the broker rejects the first `Produce` with a
non-retriable error, `SendDetection` aborts immediately — exactly one
`Produce` call, no backoff delay, outcome `fatal` — and leaves every
metrics counter unchanged (in particular `failed` is *not* incremented for
that record; `failed` counts only retry exhaustion and asynchronous
delivery failures). -/
theorem c2_nonretriable_amended (m b : Nat) (resp : Nat → ProduceResult)
    (h : resp 0 = ProduceResult.fatal) :
    (sendDetection m b resp).outcome = SendOutcome.fatal
    ∧ (sendDetection m b resp).attempts = 1
    ∧ (sendDetection m b resp).delays = []
    ∧ ∀ s : PState, stepEv m b s (PEvent.send resp) = s := by
  have hs : sendDetection m b resp = ⟨SendOutcome.fatal, 1, []⟩ := by
    simp [sendDetection, sendLoopAux, h]
  refine ⟨by rw [hs], by rw [hs], by rw [hs], ?_⟩
  intro s
  simp [stepEv, hs]

/-- C2, witness: the amended statement applied to the broker that rejects
non-retriably, at the initial state. -/
theorem c2_nonretriable_amended_witness :
    (fun _ : Nat => ProduceResult.fatal) 0 = ProduceResult.fatal
    ∧ (sendDetection defaultMaxRetries defaultBaseBackoffMs (fun _ => ProduceResult.fatal)).attempts = 1
    ∧ stepEv defaultMaxRetries defaultBaseBackoffMs initialPState
        (PEvent.send (fun _ => ProduceResult.fatal)) = initialPState :=
  ⟨rfl,
   (c2_nonretriable_amended defaultMaxRetries defaultBaseBackoffMs _ rfl).2.1,
   (c2_nonretriable_amended defaultMaxRetries defaultBaseBackoffMs _ rfl).2.2.2 initialPState⟩

/-- C3: in the `SendDetection` retry loop the initial attempt is never
preceded by a delay and the delay before the `k`-th retry is
`baseBackoff * 2^(k-1)` (the slept delays are exactly that formula over
`k = 1, …, attempts-1`, for every broker behaviour); the defaults are
`maxRetries = 5` and `baseBackoff = 100` ms, under which a transient error
is retried at most 5 times, and a permanently-transient broker yields
exactly 6 attempts with sleeps `[100, 200, 400, 800, 1600]` ms before the
call escalates to permanent failure. -/
theorem c3_backoff_schedule :
    (∀ (m b : Nat) (resp : Nat → ProduceResult),
        (sendDetection m b resp).delays
          = (List.range' 1 ((sendDetection m b resp).attempts - 1)).map
              (fun k => b * 2 ^ (k - 1)))
    ∧ defaultMaxRetries = 5
    ∧ defaultBaseBackoffMs = 100
    ∧ (∀ resp : Nat → ProduceResult,
        (sendDetection defaultMaxRetries defaultBaseBackoffMs resp).attempts - 1
          ≤ defaultMaxRetries)
    ∧ sendDetection defaultMaxRetries defaultBaseBackoffMs (fun _ => ProduceResult.transient)
        = ⟨SendOutcome.exhausted, 6, [100, 200, 400, 800, 1600]⟩ := by
  refine ⟨sendDetection_delays, rfl, rfl, ?_, by decide⟩
  intro resp
  have h := sendLoopAux_attempts_le defaultBaseBackoffMs resp (defaultMaxRetries + 1) 0 []
  have : (sendDetection defaultMaxRetries defaultBaseBackoffMs resp).attempts
      ≤ defaultMaxRetries + 1 := h
  omega

/-- C4, counterexample: `KafkaProducer.Flush` obtains the outstanding-message
count from the broker client (here 3 with a 1s timeout) and logs it, but
does not return it: the Go function has no return value, so the claim that
the count is returned to the caller fails. -/
theorem c4_counterexample :
    (producerFlush (fun _ => 3) 1000000000).calledWithMs = 1000
    ∧ (producerFlush (fun _ => 3) 1000000000).loggedRemaining = 3
    ∧ ¬ ((producerFlush (fun _ => 3) 1000000000).returnedToCaller = some 3) := by
  refine ⟨rfl, rfl, by decide⟩

/-- C4, amended: for every timeout, `Flush` delegates the
block-until-empty-or-timeout wait to the broker client's flush, passing the
timeout converted to milliseconds; the count still outstanding is obtained
from that call and logged, but nothing is returned to `Flush`'s caller. -/
theorem c4_flush_amended (brokerFlush : Nat → Nat) (timeoutNs : Nat) :
    (producerFlush brokerFlush timeoutNs).calledWithMs = timeoutNs / 1000000
    ∧ (producerFlush brokerFlush timeoutNs).loggedRemaining
        = brokerFlush (timeoutNs / 1000000)
    ∧ (producerFlush brokerFlush timeoutNs).returnedToCaller = none :=
  ⟨rfl, rfl, rfl⟩

/-- C5, counterexample: `Close` has no wait-for-worker-completion step, and
the collector is not guaranteed to drain `deliveryChan` before the final
metrics: after cancellation, a select round that picks the ready
`ctx.Done()` branch makes `handleDeliveryReports` return with a queued
success report still unprocessed — the counters stay at zero and the event
is never counted into `acked`. -/
theorem c5_counterexample :
    CloseStep.waitWorkers ∉ closeSteps
    ∧ collectorAfterCancel [true] [DeliveryEvent.report false] ⟨0, 0, 0⟩
        = (⟨0, 0, 0⟩, [DeliveryEvent.report false]) := by
  refine ⟨by decide, rfl⟩

/-- C5, amended: `Close` performs, in order: signal cancellation, flush
with a 30-second timeout, wait for the delivery report collector goroutine,
close the broker client, then report final metrics; it contains no wait for
send workers (those are waited inside the batch/stream calls), and after
cancellation the collector processes exactly the queued events of the
select rounds that chose the event branch — it exits at the first round
that chooses the cancellation branch, leaving the remaining queued events
unprocessed. -/
theorem c5_close_amended :
    closeSteps.indexOf CloseStep.cancelCtx = 0
    ∧ closeSteps.indexOf (CloseStep.flushStep closeFlushTimeoutNs) = 1
    ∧ closeSteps.indexOf CloseStep.waitCollector = 2
    ∧ closeSteps.indexOf CloseStep.closeProducer = 3
    ∧ closeSteps.indexOf CloseStep.logMetrics = 4
    ∧ CloseStep.waitWorkers ∉ closeSteps
    ∧ (producerFlush (fun _ => 0) closeFlushTimeoutNs).calledWithMs = 30000
    ∧ (∀ (cs : List Bool) (q : List DeliveryEvent) (mcs : Metrics),
        collectorAfterCancel cs q mcs
          = ((q.take (leadPulls cs)).foldl collectorStep mcs, q.drop (leadPulls cs)))
    ∧ (∀ (cs : List Bool) (e : DeliveryEvent) (q : List DeliveryEvent) (mcs : Metrics),
        collectorAfterCancel (true :: cs) (e :: q) mcs = (mcs, e :: q)) := by
  refine ⟨by decide, by decide, by decide, by decide, by decide, by decide, by decide,
    collectorAfterCancel_eq, ?_⟩
  intro cs e q mcs
  rfl

/-- C6, counterexample: after the cancellation signal fires, a worker's
select between the ready `ctx.Done()` branch and a buffered record can
still choose the record branch, so a new record *is* pulled from the input
channel after cancellation — the claim that no new records are pulled
fails. -/
theorem c6_counterexample :
    (workerAfterCancel defaultMaxRetries defaultBaseBackoffMs [false]
        [fun _ => ProduceResult.accepted]).1.length = 1
    ∧ ¬ ((workerAfterCancel defaultMaxRetries defaultBaseBackoffMs [false]
        [fun _ => ProduceResult.accepted]).1.length = 0) := by
  refine ⟨rfl, by decide⟩

/-- C6, amended: after cancellation every worker checks the cancellation
branch at each queue-pull and exits at the first select round that chooses
it, leaving the remaining input undrained (in particular, when the first
round chooses cancellation the worker pulls nothing and the whole queue
remains); until such a round the select may still pull records, and every
record pulled is driven through the full `SendDetection` retry loop to a
terminal outcome. -/
theorem c6_cancellation_amended (m b : Nat) :
    (∀ (cs : List Bool) (q : List (Nat → ProduceResult)),
        workerAfterCancel m b cs q
          = ((q.take (leadPulls cs)).map (sendDetection m b), q.drop (leadPulls cs)))
    ∧ (∀ (cs : List Bool) (q : List (Nat → ProduceResult)),
        workerAfterCancel m b (true :: cs) q = ([], q)) := by
  refine ⟨workerAfterCancel_eq m b, ?_⟩
  intro cs q
  cases q <;> rfl

/-- C7: in `SendDetectionBatch` a failed record never halts the pool — the
outcomes are exactly one `SendDetection` result per input record in order,
so every record is attempted exactly once however many others fail, and
the call returns `nil` exactly when no record failed, otherwise an
aggregated error carrying the failure count. -/
theorem c7_batch_partial_failure (m b : Nat) (rs : List (Nat → ProduceResult)) :
    (sendDetectionBatch m b rs).1 = rs.map (sendDetection m b)
    ∧ (sendDetectionBatch m b rs).1.length = rs.length
    ∧ ((sendDetectionBatch m b rs).2 = none
        ↔ batchFailCount (rs.map (sendDetection m b)) = 0) := by
  rcases rs with _ | ⟨r, rs⟩
  · exact ⟨rfl, rfl, by simp [sendDetectionBatch, batchFailCount]⟩
  · have hmap := batchOutcomes_eq_map m b (r :: rs)
    refine ⟨?_, ?_, ?_⟩
    · simp [sendDetectionBatch, hmap]
    · simp [sendDetectionBatch, hmap]
    · simp only [sendDetectionBatch, List.isEmpty_cons, Bool.false_eq_true, if_false, hmap]
      by_cases hz : batchFailCount ((r :: rs).map (sendDetection m b)) = 0
      · simp [hz]
      · simp [hz]

/-- C8: `SendDetection` derives from each record exactly one message — key
equal to the record's detection id, value the serialized full record
(recoverable in full from the wire object), and exactly the three routing
headers `vehicle_id`, `session_id`, `class_name` — and at most one copy
enters the broker per call (every `Produce` call before the last was
answered `transient`, and the loop stops at the first acceptance);
resubmitting the same record twice against an accepting broker produces
two independent messages with the same key: nothing deduplicates. -/
theorem c8_message_shape (t : String) (d : Detection) (m b : Nat) :
    (buildMessage t d).key = d.detectionID
    ∧ (buildMessage t d).headers
        = [⟨"vehicle_id", d.vehicleID⟩, ⟨"session_id", d.sessionID⟩,
           ⟨"class_name", d.className⟩]
    ∧ (buildMessage t d).value = d.toWire
    ∧ (d.toWire).toDetection = d
    ∧ (∀ (resp : Nat → ProduceResult) (k : Nat),
        k + 1 < (sendDetection m b resp).attempts → resp k = ProduceResult.transient)
    ∧ producedMessages m b t
        [(d, fun _ => ProduceResult.accepted), (d, fun _ => ProduceResult.accepted)]
        = [buildMessage t d, buildMessage t d]
    ∧ (producedMessages m b t
        [(d, fun _ => ProduceResult.accepted), (d, fun _ => ProduceResult.accepted)]).map
          KMessage.key
        = [d.detectionID, d.detectionID] := by
  refine ⟨rfl, rfl, rfl, rfl, ?_, rfl, rfl⟩
  intro resp k hk
  exact sendLoopAux_pre b resp (m + 1) 0 [] k (Nat.zero_le k) hk

/-- C8, witness: the message key equality at a concrete record, and the
all-but-last-transient characterization applied at the always-transient
broker with its hypothesis discharged concretely. -/
theorem c8_message_shape_witness :
    (buildMessage "traffic-sign-detections" sampleDetection).key
      = sampleDetection.detectionID
    ∧ (fun _ : Nat => ProduceResult.transient) 2 = ProduceResult.transient :=
  ⟨(c8_message_shape "traffic-sign-detections" sampleDetection
      defaultMaxRetries defaultBaseBackoffMs).1,
   (c8_message_shape "traffic-sign-detections" sampleDetection
      defaultMaxRetries defaultBaseBackoffMs).2.2.2.2.1
     (fun _ => ProduceResult.transient) 2 (by decide)⟩

/-- C9, counterexample: on the malformed file of `TestCSVReaderInvalidData`
(two rows with non-numeric `frame_number` / `timestamp_sec`), `ReadAll`
skips both rows and returns no error and no detections — but the surfaced
output contains only one warning log per dropped row and the loaded count:
no aggregate count of the dropped rows is reported anywhere, so the
claim's "count of the dropped rows surfaced" fails. -/
theorem c9_counterexample :
    readAll "test-vehicle" "test-session" (fun _ => "id-0") 0 invalidCSVLines
      = Except.ok ([], [LogEvent.rowParseError, LogEvent.rowParseError,
                        LogEvent.loadedCount 0])
    ∧ (invalidCSVLines.drop 1).countP (lineDropped "test-vehicle" "test-session" 0) = 2
    ∧ ([LogEvent.rowParseError, LogEvent.rowParseError, LogEvent.loadedCount 0].all
        (fun e => !isDroppedCountLog e)) = true := by
  refine ⟨rfl, rfl, rfl⟩

/-- C9, amended: the Record Source never delivers a malformed row: for any
data rows, `ReadAll` and `StreamToChannel` return no error, their output is
exactly the successful parses of the valid rows in order (a row with an
invalid `frame_number`, `timestamp_sec`, pixel coordinates or `confidence`
is skipped), each dropped row is surfaced as an individual warning log
(their number equals the number of dropped rows) and the count of loaded
detections is logged — but no aggregate dropped-row count is emitted. -/
theorem c9_reader_amended (vid sid : String) (ids : Nat → String) (ia : Int)
    (hdr : Row) (rest : List RawLine) :
    exceptOk (readAll vid sid ids ia (RawLine.goodRow hdr :: rest)) = true
    ∧ readerDetections (readAll vid sid ids ia (RawLine.goodRow hdr :: rest))
        = deliveredDetections vid sid ids ia rest 0
    ∧ readerDetections (streamToChannel vid sid ids ia (RawLine.goodRow hdr :: rest))
        = deliveredDetections vid sid ids ia rest 0
    ∧ (readerLogs (readAll vid sid ids ia (RawLine.goodRow hdr :: rest))).countP
        isRowWarning = rest.countP (lineDropped vid sid ia)
    ∧ (readerLogs (readAll vid sid ids ia (RawLine.goodRow hdr :: rest))).all
        (fun e => !isDroppedCountLog e) = true
    ∧ LogEvent.loadedCount (deliveredDetections vid sid ids ia rest 0).length
        ∈ readerLogs (readAll vid sid ids ia (RawLine.goodRow hdr :: rest)) := by
  obtain ⟨h1, h2, h3⟩ := readLoop_spec vid sid ids ia rest 0
  refine ⟨rfl, ?_, ?_, ?_, ?_, ?_⟩
  · simpa [readAll, readerDetections] using h1
  · simpa [streamToChannel, readerDetections] using h1
  · show ((readLoop vid sid ids ia rest 0).2
        ++ [LogEvent.loadedCount (readLoop vid sid ids ia rest 0).1.length]).countP
        isRowWarning = rest.countP (lineDropped vid sid ia)
    rw [List.countP_append, h2]
    rfl
  · show ((readLoop vid sid ids ia rest 0).2
        ++ [LogEvent.loadedCount (readLoop vid sid ids ia rest 0).1.length]).all
        (fun e => !isDroppedCountLog e) = true
    rw [List.all_append, h3]
    rfl
  · show LogEvent.loadedCount (deliveredDetections vid sid ids ia rest 0).length
        ∈ (readLoop vid sid ids ia rest 0).2
          ++ [LogEvent.loadedCount (readLoop vid sid ids ia rest 0).1.length]
    rw [h1]
    exact List.mem_append_right _ (List.mem_singleton.mpr rfl)

/-- C10: calling `SendDetectionBatch` on an empty slice returns `nil`
immediately: the early return fires before any worker is spawned, no
outcome is produced, and every metrics counter (and the whole pipeline
state) is unchanged. -/
theorem c10_empty_batch :
    sendDetectionBatch defaultMaxRetries defaultBaseBackoffMs [] = ([], none)
    ∧ (∀ m b : Nat, sendDetectionBatch m b [] = ([], none))
    ∧ (∀ (m b : Nat) (s : PState), batchStep m b s [] = s) :=
  ⟨rfl, fun _ _ => rfl, fun _ _ _ => rfl⟩
